import Mathlib

/-!
Verification of the Irrigation Decision Engine of the Smart-agriculture-system
repository (`backend/src/services/realAnalyticsService.js`, class
`RealIrrigationService`).

JavaScript numbers are modelled as rationals (`ℚ`); `Math.round` is
round-half-up (`⌊x + 1/2⌋`), `Math.floor` is `⌊x⌋`.  The two impure reads the
engine performs — `new Date().getHours()` in `getSmartRecommendations` and the
`Math.random()` draw in `getFallbackRecommendation` — become explicit
parameters (`hour`, and the draw `r = ⌊random · 40⌋ < 40`).  Provider calls
that may fail become `Option` arguments of `getRecommendation`.
-/

namespace SmartAgri

/-- JavaScript `Math.round`: round half toward `+∞`, i.e. `⌊q + 1/2⌋`
(written with the executable `Rat.floor`). -/
def jsRound (q : ℚ) : ℤ := (q + 1/2).floor

/-- Shape of `sensorData` as consumed by the engine (telemetry snapshot). -/
structure SensorData where
  soilMoisture : ℚ
  temperature : ℚ
  humidity : ℚ
  lightIntensity : ℚ
  soilPH : ℚ
  soilTemperature : ℚ
deriving DecidableEq

/-- Shape of `weatherData.current` (weather snapshot). -/
structure Weather where
  temperature : ℚ
  humidity : ℚ
  precipitation : ℚ
  windSpeed : ℚ
deriving DecidableEq

/-- Shape of `this.settings` of `RealIrrigationService`. -/
structure Settings where
  autoMode : Bool
  moistureThreshold : ℚ
  temperatureThreshold : ℚ
  maxDailyWater : ℚ
  conservationMode : Bool
deriving DecidableEq

/-- The defaults installed by the constructor. -/
def defaultSettings : Settings :=
  { autoMode := true
    moistureThreshold := 30
    temperatureThreshold := 30
    maxDailyWater := 500
    conservationMode := false }

/-- A zone of `this.zones`. -/
structure Zone where
  id : ℕ
  name : String
  area : ℚ
  soilType : String
deriving DecidableEq

/-- The static zone registry installed by the constructor. -/
def defaultZones : List Zone :=
  [ { id := 1, name := "Zone 1 - Vegetables", area := 100, soilType := "loamy" }
  , { id := 2, name := "Zone 2 - Fruits", area := 150, soilType := "clay" }
  , { id := 3, name := "Zone 3 - Herbs", area := 50, soilType := "sandy" } ]

/-- The ids present in a zone registry. -/
def zoneIds (zs : List Zone) : List ℕ := zs.map (fun z => z.id)

/-- The `priority` strings used by the engine. -/
inductive Priority where
  | low
  | medium
  | high
deriving DecidableEq

/-- One entry of `getSmartRecommendations`' output. -/
structure SmartRec where
  type : String
  message : String
  priority : String
deriving DecidableEq

/-- The object `calculateSmartRecommendation` returns. -/
structure Recommendation where
  shouldIrrigate : Bool
  soilMoisture : ℤ
  priority : Priority
  waterAmount : ℚ
  duration : ℚ
  reasons : List String
  nextCheck : ℚ
  recommendation : String
  smartRecommendations : List SmartRec
  efficiency : ℚ
  zones : List ℕ
deriving DecidableEq

/-- The local mutable variables threaded through `calculateSmartRecommendation`. -/
structure EngineState where
  shouldIrrigate : Bool
  priority : Priority
  waterAmount : ℚ
  duration : ℚ
  reasons : List String
  nextCheck : ℚ
deriving DecidableEq

/-- Their initial values: `false`, `'low'`, `0`, `0`, `[]`, `2`. -/
def initState : EngineState :=
  { shouldIrrigate := false, priority := .low, waterAmount := 0, duration := 0
    reasons := [], nextCheck := 2 }

/-- Primary soil moisture check:
`if (soilMoisture < this.settings.moistureThreshold) { shouldIrrigate = true;
priority = soilMoisture < 20 ? 'high' : 'medium'; reasons.push(...) }`. -/
def moistureStep (sd : SensorData) (st : Settings) (s : EngineState) : EngineState :=
  if sd.soilMoisture < st.moistureThreshold then
    { s with shouldIrrigate := true
             priority := if sd.soilMoisture < 20 then .high else .medium
             reasons := s.reasons ++
               ["Low soil moisture: " ++ toString (jsRound sd.soilMoisture) ++ "%"] }
  else s

/-- Temperature stress check:
`if (temperature > threshold) { if (soilMoisture < 40) { shouldIrrigate = true;
priority = 'high'; reasons.push(...) } }`. -/
def heatStep (sd : SensorData) (st : Settings) (s : EngineState) : EngineState :=
  if sd.temperature > st.temperatureThreshold then
    if sd.soilMoisture < 40 then
      { s with shouldIrrigate := true
               priority := .high
               reasons := s.reasons ++
                 ["Heat stress detected: " ++ toString (jsRound sd.temperature) ++ "°C"] }
    else s
  else s

/-- Weather-based adjustments: `if (weather.precipitation > 5) { shouldIrrigate =
false; reasons = [...]; nextCheck = 6 } else if (weather.precipitation > 2)
{ waterAmount *= 0.7; duration *= 0.7; reasons.push(...) }`. -/
def weatherStep (w : Weather) (s : EngineState) : EngineState :=
  if w.precipitation > 5 then
    { s with shouldIrrigate := false
             reasons := ["Recent rainfall - irrigation not needed"]
             nextCheck := 6 }
  else if w.precipitation > 2 then
    { s with waterAmount := s.waterAmount * (7/10)
             duration := s.duration * (7/10)
             reasons := s.reasons ++ ["Light rain - reduced irrigation"] }
  else s

/-- High humidity adjustment: `if (weather.humidity > 85) { waterAmount *= 0.8;
duration *= 0.8; reasons.push(...) }`. -/
def humidityStep (w : Weather) (s : EngineState) : EngineState :=
  if w.humidity > 85 then
    { s with waterAmount := s.waterAmount * (4/5)
             duration := s.duration * (4/5)
             reasons := s.reasons ++
               ["High humidity - reduced watering to prevent fungal issues"] }
  else s

/-- Source method `calculateBaseWaterAmount(sensorData, priority)` (reads `this.settings`). -/
def calculateBaseWaterAmount (sd : SensorData) (priority : Priority)
    (st : Settings) : ℚ :=
  let moistureDeficit := max 0 (50 - sd.soilMoisture)
  let tempFactor := max 1 (sd.temperature / 25)
  let baseAmount := moistureDeficit * 8
  let baseAmount := if priority = .high then baseAmount * (3/2) else baseAmount
  let baseAmount := if priority = .medium then baseAmount * (6/5) else baseAmount
  min (baseAmount * tempFactor) st.maxDailyWater

/-- Final volume computation: `if (shouldIrrigate) { waterAmount = Math.round(baseWater);
duration = Math.round(waterAmount / 10) }`. -/
def computeStep (sd : SensorData) (st : Settings) (s : EngineState) : EngineState :=
  if s.shouldIrrigate then
    let w : ℚ := (jsRound (calculateBaseWaterAmount sd s.priority st) : ℤ)
    { s with waterAmount := w, duration := ((jsRound (w / 10) : ℤ) : ℚ) }
  else s

/-- The sequential body of `calculateSmartRecommendation` before the final
`if (shouldIrrigate)` volume computation. -/
def preEngine (sd : SensorData) (w : Weather) (st : Settings) : EngineState :=
  humidityStep w (weatherStep w (heatStep sd st (moistureStep sd st initState)))

/-- The sequential body of `calculateSmartRecommendation` up to the final
object assembly. -/
def runEngine (sd : SensorData) (w : Weather) (st : Settings) : EngineState :=
  computeStep sd st (preEngine sd w st)

/-- Source method `getOptimalZones(sensorData)`. -/
def getOptimalZones (sd : SensorData) : List ℕ :=
  let zones := (if sd.soilMoisture < 30 then [1, 2] else []) ++
               (if sd.temperature > 32 then [3] else [])
  if zones = [] then [1] else zones

/-- Source method `getSmartRecommendations(sensorData, weatherData, shouldIrrigate)`; the
`new Date().getHours()` read is the explicit `hour` parameter. -/
def getSmartRecommendations (sd : SensorData) (w : Weather)
    (shouldIrrigate : Bool) (hour : ℕ) : List SmartRec :=
  (if shouldIrrigate ∧ hour > 10 ∧ hour < 16 then
    [{ type := "timing"
       message := "Consider irrigating early morning or evening to reduce evaporation"
       priority := "medium" }]
   else []) ++
  (if sd.soilPH < 6 then
    [{ type := "soil"
       message := "Soil pH is low - consider adding lime to improve nutrient absorption"
       priority := "low" }]
   else if sd.soilPH > 15/2 then
    [{ type := "soil"
       message := "Soil pH is high - consider adding sulfur to improve nutrient availability"
       priority := "low" }]
   else []) ++
  (if w.windSpeed > 15 then
    [{ type := "weather"
       message := "High wind conditions - use micro-irrigation to reduce water loss"
       priority := "medium" }]
   else []) ++
  (if sd.humidity < 40 then
    [{ type := "efficiency"
       message := "Low humidity - consider mulching to retain soil moisture"
       priority := "medium" }]
   else [])

/-- Source method `calculateEfficiencyScore(sensorData, weatherData)`. -/
def calculateEfficiencyScore (sd : SensorData) (w : Weather) : ℚ :=
  let score : ℚ := 80
  let score := if sd.soilMoisture > 40 ∧ sd.soilMoisture < 60 then score + 10
               else if sd.soilMoisture < 30 ∨ sd.soilMoisture > 70 then score - 15
               else score
  let score := if w.humidity > 60 ∧ w.humidity < 80 then score + 5 else score
  let score := if w.temperature > 20 ∧ w.temperature < 28 then score + 5 else score
  max 20 (min 100 score)

/-- Source method `calculateSmartRecommendation(sensorData, weatherData)`: runs the rule
pipeline and assembles the returned object. -/
def calculateSmartRecommendation (sd : SensorData) (w : Weather) (st : Settings)
    (hour : ℕ) : Recommendation :=
  let s := runEngine sd w st
  { shouldIrrigate := s.shouldIrrigate
    soilMoisture := jsRound sd.soilMoisture
    priority := s.priority
    waterAmount := s.waterAmount
    duration := s.duration
    reasons := s.reasons
    nextCheck := s.nextCheck
    recommendation :=
      if s.shouldIrrigate then
        "Irrigation recommended: " ++ String.intercalate ", " s.reasons
      else
        "No irrigation needed: " ++ String.intercalate ", " s.reasons
    smartRecommendations := getSmartRecommendations sd w s.shouldIrrigate hour
    efficiency := calculateEfficiencyScore sd w
    zones := if s.shouldIrrigate then getOptimalZones sd else [] }

/-- Source method `getFallbackRecommendation()`; the draw
`Math.floor(Math.random() * 40)` is the explicit parameter `r < 40`, so
`soilMoisture = r + 30 ∈ [30, 70)`. -/
def getFallbackRecommendation (r : ℕ) : Recommendation :=
  let soilMoisture : ℤ := (r : ℤ) + 30
  let shouldIrrigate : Bool := soilMoisture < 35
  { shouldIrrigate := shouldIrrigate
    soilMoisture := soilMoisture
    priority := if shouldIrrigate then .medium else .low
    waterAmount := if shouldIrrigate then 150 else 0
    duration := if shouldIrrigate then 15 else 0
    reasons := if shouldIrrigate then ["Soil moisture below threshold"]
               else ["Soil moisture adequate"]
    nextCheck := 2
    recommendation :=
      if shouldIrrigate then "Irrigation recommended based on soil moisture"
      else "No irrigation needed - soil moisture adequate"
    smartRecommendations := []
    efficiency := 75
    zones := if shouldIrrigate then [1] else [] }

/-- Source method `getRecommendation()`: the `try` block reads the two providers and calls
`calculateSmartRecommendation`; any provider failure is caught and answered
with `getFallbackRecommendation()`.  Provider results are `Option`s, `none`
standing for a thrown error or timeout. -/
def getRecommendation (telemetry : Option SensorData) (weather : Option Weather)
    (st : Settings) (hour : ℕ) (r : ℕ) : Recommendation :=
  match telemetry, weather with
  | some sd, some w => calculateSmartRecommendation sd w st hour
  | some _, none => getFallbackRecommendation r
  | none, _ => getFallbackRecommendation r

/-- A partial settings update (`newSettings` of `updateSettings`): absent
fields are `none`. -/
structure SettingsUpdate where
  autoMode : Option Bool := none
  moistureThreshold : Option ℚ := none
  temperatureThreshold : Option ℚ := none
  maxDailyWater : Option ℚ := none
  conservationMode : Option Bool := none
deriving DecidableEq

/-- Source method `updateSettings(newSettings)`: the spread merge
`this.settings = { ...this.settings, ...newSettings }`. -/
def updateSettings (s : Settings) (u : SettingsUpdate) : Settings :=
  { autoMode := u.autoMode.getD s.autoMode
    moistureThreshold := u.moistureThreshold.getD s.moistureThreshold
    temperatureThreshold := u.temperatureThreshold.getD s.temperatureThreshold
    maxDailyWater := u.maxDailyWater.getD s.maxDailyWater
    conservationMode := u.conservationMode.getD s.conservationMode }

/-- One entry of `this.irrigationHistory`; the wall-clock `date` and the
random `efficiency` are explicit parameters at the call site. -/
structure HistoryEntry where
  date : String
  waterUsed : ℚ
  duration : ℚ
  zones : List ℕ
  efficiency : ℚ
  reason : String
  savings : ℚ
deriving DecidableEq

/-- The value `startIrrigation` resolves with. -/
structure StartResult where
  success : Bool
  waterAmount : ℚ
  duration : ℚ
deriving DecidableEq

/-- Source method `startIrrigation(zones, duration)`: computes
`waterAmount = zones.length * duration * 10`, pushes a history entry and
returns success.  Returns the result together with the new history list. -/
def startIrrigation (history : List HistoryEntry) (zones : List ℕ) (duration : ℚ)
    (date : String) (efficiency : ℚ) : StartResult × List HistoryEntry :=
  let waterAmount : ℚ := (zones.length : ℚ) * duration * 10
  ( { success := true, waterAmount := waterAmount, duration := duration }
  , history ++ [{ date := date, waterUsed := waterAmount, duration := duration
                  zones := zones, efficiency := efficiency, reason := "manual"
                  savings := 0 }] )

/-! Helper lemmas about the engine pipeline. -/

theorem jsRound_eq_floor (q : ℚ) : jsRound q = ⌊q + 1/2⌋ := by
  unfold jsRound
  rw [Rat.floor_def']
  exact Rat.floor_def.symm

theorem jsRound_le_int (q : ℚ) (n : ℤ) (h : q ≤ (n : ℚ)) : jsRound q ≤ n := by
  rw [jsRound_eq_floor]
  have h2 : q + 1/2 ≤ (n : ℚ) + 1/2 := by linarith
  calc ⌊q + 1/2⌋ ≤ ⌊(n : ℚ) + 1/2⌋ := Int.floor_le_floor h2
    _ = n := by
        rw [add_comm, Int.floor_add_int]
        norm_num

theorem moistureStep_waterAmount (sd : SensorData) (st : Settings) (s : EngineState) :
    (moistureStep sd st s).waterAmount = s.waterAmount := by
  unfold moistureStep
  split_ifs <;> rfl

theorem moistureStep_duration (sd : SensorData) (st : Settings) (s : EngineState) :
    (moistureStep sd st s).duration = s.duration := by
  unfold moistureStep
  split_ifs <;> rfl

theorem heatStep_waterAmount (sd : SensorData) (st : Settings) (s : EngineState) :
    (heatStep sd st s).waterAmount = s.waterAmount := by
  unfold heatStep
  split_ifs <;> rfl

theorem heatStep_duration (sd : SensorData) (st : Settings) (s : EngineState) :
    (heatStep sd st s).duration = s.duration := by
  unfold heatStep
  split_ifs <;> rfl

theorem humidityStep_shouldIrrigate (w : Weather) (s : EngineState) :
    (humidityStep w s).shouldIrrigate = s.shouldIrrigate := by
  unfold humidityStep
  split_ifs <;> rfl

theorem humidityStep_priority (w : Weather) (s : EngineState) :
    (humidityStep w s).priority = s.priority := by
  unfold humidityStep
  split_ifs <;> rfl

theorem humidityStep_nextCheck (w : Weather) (s : EngineState) :
    (humidityStep w s).nextCheck = s.nextCheck := by
  unfold humidityStep
  split_ifs <;> rfl

theorem computeStep_shouldIrrigate (sd : SensorData) (st : Settings) (s : EngineState) :
    (computeStep sd st s).shouldIrrigate = s.shouldIrrigate := by
  unfold computeStep
  split_ifs <;> rfl

theorem computeStep_priority (sd : SensorData) (st : Settings) (s : EngineState) :
    (computeStep sd st s).priority = s.priority := by
  unfold computeStep
  split_ifs <;> rfl

theorem computeStep_reasons (sd : SensorData) (st : Settings) (s : EngineState) :
    (computeStep sd st s).reasons = s.reasons := by
  unfold computeStep
  split_ifs <;> rfl

theorem computeStep_nextCheck (sd : SensorData) (st : Settings) (s : EngineState) :
    (computeStep sd st s).nextCheck = s.nextCheck := by
  unfold computeStep
  split_ifs <;> rfl

theorem computeStep_of_false (sd : SensorData) (st : Settings) (s : EngineState)
    (h : s.shouldIrrigate = false) : computeStep sd st s = s := by
  unfold computeStep
  rw [h]
  simp

theorem computeStep_water_of_true (sd : SensorData) (st : Settings) (s : EngineState)
    (h : s.shouldIrrigate = true) :
    (computeStep sd st s).waterAmount =
      ((jsRound (calculateBaseWaterAmount sd s.priority st) : ℤ) : ℚ) := by
  unfold computeStep
  rw [h]
  simp

theorem preEngine_water_zero (sd : SensorData) (w : Weather) (st : Settings) :
    (preEngine sd w st).waterAmount = 0 ∧ (preEngine sd w st).duration = 0 := by
  unfold preEngine humidityStep weatherStep heatStep moistureStep initState
  split_ifs <;> simp

theorem step_inv_moisture (sd : SensorData) (st : Settings) (s : EngineState)
    (hs : s.shouldIrrigate = true → s.priority ≠ .low) :
    (moistureStep sd st s).shouldIrrigate = true → (moistureStep sd st s).priority ≠ .low := by
  unfold moistureStep
  split_ifs <;> simp_all

theorem step_inv_heat (sd : SensorData) (st : Settings) (s : EngineState)
    (hs : s.shouldIrrigate = true → s.priority ≠ .low) :
    (heatStep sd st s).shouldIrrigate = true → (heatStep sd st s).priority ≠ .low := by
  unfold heatStep
  split_ifs <;> simp_all

theorem step_inv_weather (w : Weather) (s : EngineState)
    (hs : s.shouldIrrigate = true → s.priority ≠ .low) :
    (weatherStep w s).shouldIrrigate = true → (weatherStep w s).priority ≠ .low := by
  unfold weatherStep
  split_ifs <;> simp_all

theorem step_inv_humidity (w : Weather) (s : EngineState)
    (hs : s.shouldIrrigate = true → s.priority ≠ .low) :
    (humidityStep w s).shouldIrrigate = true → (humidityStep w s).priority ≠ .low := by
  unfold humidityStep
  split_ifs <;> simp_all

theorem runEngine_inv (sd : SensorData) (w : Weather) (st : Settings) :
    (runEngine sd w st).shouldIrrigate = true → (runEngine sd w st).priority ≠ .low := by
  unfold runEngine
  rw [computeStep_shouldIrrigate, computeStep_priority]
  unfold preEngine
  apply step_inv_humidity
  apply step_inv_weather
  apply step_inv_heat
  apply step_inv_moisture
  intro h
  simp [initState] at h

/-! Concrete inputs used by counterexamples and witnesses. -/

/-- Telemetry with soil moisture 25 % (below the default threshold 30) and
temperature 25 °C. -/
def sdDry : SensorData :=
  { soilMoisture := 25, temperature := 25, humidity := 50, lightIntensity := 0
    soilPH := 13/2, soilTemperature := 23 }

/-- Weather with light rain: 3 mm precipitation, humidity 50 %. -/
def wLightRain : Weather :=
  { temperature := 25, humidity := 50, precipitation := 3, windSpeed := 5 }

/-- Telemetry with very low soil moisture 15 %. -/
def sdVeryDry : SensorData :=
  { soilMoisture := 15, temperature := 25, humidity := 50, lightIntensity := 0
    soilPH := 13/2, soilTemperature := 23 }

/-- Weather with heavy rain (8 mm) and high humidity (90 %). -/
def wRainHumid : Weather :=
  { temperature := 25, humidity := 90, precipitation := 8, windSpeed := 5 }

/-- Telemetry with comfortable soil moisture 60 %, temperature 20 °C. -/
def sdWet : SensorData :=
  { soilMoisture := 60, temperature := 20, humidity := 50, lightIntensity := 0
    soilPH := 13/2, soilTemperature := 18 }

/-- Dry, calm weather. -/
def wCalm : Weather :=
  { temperature := 25, humidity := 50, precipitation := 0, windSpeed := 5 }

/-! Claim theorems. -/

/-- C1: for every telemetry snapshot, weather snapshot, settings and clock
hour, if the returned recommendation has `shouldIrrigate = false` then its
`waterAmount` and `duration` are `0` and its `zones` list is empty; the same
holds for every fallback recommendation. -/
theorem noIrrigation_zero_water (sd : SensorData) (w : Weather) (st : Settings)
    (hour r : ℕ) :
    ((calculateSmartRecommendation sd w st hour).shouldIrrigate = false →
      (calculateSmartRecommendation sd w st hour).waterAmount = 0 ∧
      (calculateSmartRecommendation sd w st hour).duration = 0 ∧
      (calculateSmartRecommendation sd w st hour).zones = []) ∧
    ((getFallbackRecommendation r).shouldIrrigate = false →
      (getFallbackRecommendation r).waterAmount = 0 ∧
      (getFallbackRecommendation r).duration = 0 ∧
      (getFallbackRecommendation r).zones = []) := by
  constructor
  · intro h
    have h' : (runEngine sd w st).shouldIrrigate = false := h
    have hpre : (preEngine sd w st).shouldIrrigate = false := by
      rw [← computeStep_shouldIrrigate sd st (preEngine sd w st)]
      exact h'
    have hrun : runEngine sd w st = preEngine sd w st :=
      computeStep_of_false sd st (preEngine sd w st) hpre
    refine ⟨?_, ?_, ?_⟩
    · show (runEngine sd w st).waterAmount = 0
      rw [hrun]
      exact (preEngine_water_zero sd w st).1
    · show (runEngine sd w st).duration = 0
      rw [hrun]
      exact (preEngine_water_zero sd w st).2
    · show (if (runEngine sd w st).shouldIrrigate then getOptimalZones sd else []) = []
      rw [h']
      simp
  · intro h
    by_cases hb : ((r : ℤ) + 30 < 35) <;>
      simp [getFallbackRecommendation, hb] at h ⊢

/-- C2: whenever `weather.precipitation > 5` the recommendation has
`shouldIrrigate = false` and `nextCheck = 6`, for all telemetry, settings and
clock values (the rain override vetoes the moisture and heat rules). -/
theorem rain_override_veto (sd : SensorData) (w : Weather) (st : Settings)
    (hour : ℕ) (h : w.precipitation > 5) :
    (calculateSmartRecommendation sd w st hour).shouldIrrigate = false ∧
    (calculateSmartRecommendation sd w st hour).nextCheck = 6 := by
  have hw : weatherStep w (heatStep sd st (moistureStep sd st initState)) =
      { heatStep sd st (moistureStep sd st initState) with
        shouldIrrigate := false
        reasons := ["Recent rainfall - irrigation not needed"]
        nextCheck := 6 } := by
    unfold weatherStep
    rw [if_pos h]
  have hpre : (preEngine sd w st).shouldIrrigate = false ∧
      (preEngine sd w st).nextCheck = 6 := by
    unfold preEngine
    rw [hw, humidityStep_shouldIrrigate, humidityStep_nextCheck]
    exact ⟨rfl, rfl⟩
  constructor
  · show (runEngine sd w st).shouldIrrigate = false
    unfold runEngine
    rw [computeStep_shouldIrrigate]
    exact hpre.1
  · show (runEngine sd w st).nextCheck = 6
    unfold runEngine
    rw [computeStep_nextCheck]
    exact hpre.2

/-- C10: a recommendation with `shouldIrrigate = true` never carries priority
`low`, both on the normal path and on the fallback path. -/
theorem irrigate_priority_not_low (sd : SensorData) (w : Weather) (st : Settings)
    (hour r : ℕ) :
    ((calculateSmartRecommendation sd w st hour).shouldIrrigate = true →
      (calculateSmartRecommendation sd w st hour).priority = .medium ∨
      (calculateSmartRecommendation sd w st hour).priority = .high) ∧
    ((getFallbackRecommendation r).shouldIrrigate = true →
      (getFallbackRecommendation r).priority = .medium ∨
      (getFallbackRecommendation r).priority = .high) := by
  constructor
  · intro h
    have h' : (runEngine sd w st).shouldIrrigate = true := h
    have hne : (runEngine sd w st).priority ≠ .low := runEngine_inv sd w st h'
    show (runEngine sd w st).priority = .medium ∨ (runEngine sd w st).priority = .high
    cases hp : (runEngine sd w st).priority
    · exact absurd hp hne
    · exact Or.inl rfl
    · exact Or.inr rfl
  · intro h
    by_cases hb : ((r : ℤ) + 30 < 35) <;>
      simp [getFallbackRecommendation, hb] at h ⊢

/-- Weather with heavy rain (8 mm) and moderate humidity. -/
def wRain : Weather :=
  { temperature := 25, humidity := 50, precipitation := 8, windSpeed := 5 }

/-- Settings whose daily cap is 100 L, below the fixed fallback volume. -/
def lowCapSettings : Settings := { defaultSettings with maxDailyWater := 100 }

/-- Settings whose daily cap is the fractional 100.5 L. -/
def fracCapSettings : Settings := { defaultSettings with maxDailyWater := 201/2 }

/-- A partial update carrying a negative daily water cap. -/
def badUpdate : SettingsUpdate := { maxDailyWater := some (-5) }

/-- A recommendation with its `smartRecommendations` advisory list erased. -/
def eraseSmart (rec : Recommendation) : Recommendation :=
  { rec with smartRecommendations := [] }

/-- C2 witness: at soil moisture 15 %, 8 mm rain and defaults, irrigation is
vetoed and the next check is in 6 hours. -/
theorem rain_override_veto_witness :
    (calculateSmartRecommendation sdVeryDry wRainHumid defaultSettings 8).shouldIrrigate = false ∧
    (calculateSmartRecommendation sdVeryDry wRainHumid defaultSettings 8).nextCheck = 6 :=
  rain_override_veto sdVeryDry wRainHumid defaultSettings 8 (by decide)

unseal Rat.add Rat.sub Rat.mul Rat.inv in
/-- C1 witness: on concrete no-irrigation inputs the water amount, duration
and zone list are all zero/empty, on both paths. -/
theorem noIrrigation_zero_water_witness :
    (calculateSmartRecommendation sdWet wCalm defaultSettings 8).waterAmount = 0 ∧
    (calculateSmartRecommendation sdWet wCalm defaultSettings 8).duration = 0 ∧
    (calculateSmartRecommendation sdWet wCalm defaultSettings 8).zones = [] ∧
    ((getFallbackRecommendation 10).waterAmount = 0 ∧
      (getFallbackRecommendation 10).duration = 0 ∧
      (getFallbackRecommendation 10).zones = []) := by
  have h := noIrrigation_zero_water sdWet wCalm defaultSettings 8 10
  have h1 := h.1 (by decide)
  have h2 := h.2 (by decide)
  exact ⟨h1.1, h1.2.1, h1.2.2, h2⟩

unseal Rat.add Rat.sub Rat.mul Rat.inv in
/-- C10 witness: concrete irrigating inputs yield priority medium/high on both
paths. -/
theorem irrigate_priority_not_low_witness :
    ((calculateSmartRecommendation sdDry wCalm defaultSettings 8).priority = Priority.medium ∨
      (calculateSmartRecommendation sdDry wCalm defaultSettings 8).priority = Priority.high) ∧
    ((getFallbackRecommendation 0).priority = Priority.medium ∨
      (getFallbackRecommendation 0).priority = Priority.high) := by
  have h := irrigate_priority_not_low sdDry wCalm defaultSettings 8 0
  exact ⟨h.1 (by decide), h.2 (by decide)⟩

unseal Rat.add Rat.sub Rat.mul Rat.inv in
/-- C4 counterexample: with 8 mm rain and 90 % air humidity the reasons list
is NOT the single-element rain message - the humidity check appends its reason
after the override. -/
theorem rain_reasons_not_singleton :
    wRainHumid.precipitation > 5 ∧ wRainHumid.humidity > 85 ∧
    (calculateSmartRecommendation sdVeryDry wRainHumid defaultSettings 8).reasons ≠
      ["Recent rainfall - irrigation not needed"] ∧
    (calculateSmartRecommendation sdVeryDry wRainHumid defaultSettings 8).reasons =
      ["Recent rainfall - irrigation not needed",
       "High humidity - reduced watering to prevent fungal issues"] := by decide

/-- C4 amended: when `precipitation > 5` the reasons list is the rain message
alone if `humidity ≤ 85`, and the rain message followed by the humidity
message otherwise. -/
theorem rain_reasons_with_humidity (sd : SensorData) (w : Weather) (st : Settings)
    (hour : ℕ) (h : w.precipitation > 5) :
    (calculateSmartRecommendation sd w st hour).reasons =
      ["Recent rainfall - irrigation not needed"] ++
      (if w.humidity > 85 then
        ["High humidity - reduced watering to prevent fungal issues"]
       else []) := by
  have hw : weatherStep w (heatStep sd st (moistureStep sd st initState)) =
      { heatStep sd st (moistureStep sd st initState) with
        shouldIrrigate := false
        reasons := ["Recent rainfall - irrigation not needed"]
        nextCheck := 6 } := by
    unfold weatherStep
    rw [if_pos h]
  show (runEngine sd w st).reasons = _
  unfold runEngine
  rw [computeStep_reasons]
  unfold preEngine
  rw [hw]
  unfold humidityStep
  split_ifs <;> simp

/-- C4 amended witness: with 8 mm rain and 50 % humidity the reasons list is
exactly the rain message. -/
theorem rain_reasons_with_humidity_witness :
    (calculateSmartRecommendation sdWet wRain defaultSettings 8).reasons =
      ["Recent rainfall - irrigation not needed"] ++
      (if wRain.humidity > 85 then
        ["High humidity - reduced watering to prevent fungal issues"]
       else []) :=
  rain_reasons_with_humidity sdWet wRain defaultSettings 8 (by decide)

unseal Rat.add Rat.sub Rat.mul Rat.inv in
/-- C3: on soil moisture 25 % with 3 mm of light rain, the code pushes the
"Light rain - reduced irrigation" reason but the returned water amount is the
UNSCALED base amount 240 L (25 deficit × 8 × 1.2 medium multiplier), not
0.7 × 240 = 168 L: the ×0.7 was applied while `waterAmount` was still 0 and
then overwritten. -/
theorem lightRain_multiplier_has_no_effect :
    wLightRain.precipitation > 2 ∧ ¬ wLightRain.precipitation > 5 ∧
    (calculateSmartRecommendation sdDry wLightRain defaultSettings 8).shouldIrrigate = true ∧
    (calculateSmartRecommendation sdDry wLightRain defaultSettings 8).reasons =
      ["Low soil moisture: 25%", "Light rain - reduced irrigation"] ∧
    (calculateSmartRecommendation sdDry wLightRain defaultSettings 8).waterAmount = 240 ∧
    (calculateSmartRecommendation sdDry wLightRain defaultSettings 8).waterAmount ≠
      (7/10) * 240 := by decide

unseal Rat.add Rat.sub Rat.mul Rat.inv in
/-- C5 counterexample: the cap bound fails on both paths. With a 100 L cap an
irrigating fallback still carries the fixed 150 L; and on the normal path a
fractional cap of 100.5 L is capped inside `calculateBaseWaterAmount` but then
rounded up by `Math.round` to 101 L, again exceeding the cap. -/
theorem water_cap_exceeded :
    ((getFallbackRecommendation 0).shouldIrrigate = true ∧
      lowCapSettings.maxDailyWater = 100 ∧
      ¬ (getFallbackRecommendation 0).waterAmount ≤ lowCapSettings.maxDailyWater) ∧
    (fracCapSettings.maxDailyWater = 201/2 ∧
      (calculateSmartRecommendation sdDry wCalm fracCapSettings 8).shouldIrrigate = true ∧
      (calculateSmartRecommendation sdDry wCalm fracCapSettings 8).waterAmount = 101 ∧
      ¬ (calculateSmartRecommendation sdDry wCalm fracCapSettings 8).waterAmount ≤
          fracCapSettings.maxDailyWater) := by decide

/-- C5 amended: on the normal path the returned water amount never exceeds
`settings.maxDailyWater` whenever the cap is a whole positive number of
liters; the fallback volume is the fixed 150 L (or 0), so it respects the cap
only when the cap is at least 150 L. -/
theorem water_bounded_by_max (sd : SensorData) (w : Weather) (st : Settings)
    (hour : ℕ) (n r : ℕ) (hn : 0 < n) (hmax : st.maxDailyWater = (n : ℚ)) :
    (calculateSmartRecommendation sd w st hour).waterAmount ≤ st.maxDailyWater ∧
    (150 ≤ st.maxDailyWater →
      (getFallbackRecommendation r).waterAmount ≤ st.maxDailyWater) := by
  constructor
  · show (runEngine sd w st).waterAmount ≤ st.maxDailyWater
    unfold runEngine
    cases hsi : (preEngine sd w st).shouldIrrigate
    · rw [computeStep_of_false sd st _ hsi, (preEngine_water_zero sd w st).1, hmax]
      positivity
    · rw [computeStep_water_of_true sd st _ hsi]
      have hbase : calculateBaseWaterAmount sd (preEngine sd w st).priority st ≤ (n : ℚ) := by
        unfold calculateBaseWaterAmount
        rw [← hmax]
        exact min_le_right _ _
      have hle := jsRound_le_int _ (n : ℤ) (by exact_mod_cast hbase)
      rw [hmax]
      exact_mod_cast hle
  · intro h150
    by_cases hb : ((r : ℤ) + 30 < 35) <;> simp [getFallbackRecommendation, hb] <;> linarith

unseal Rat.add Rat.sub Rat.mul Rat.inv in
/-- C5 amended witness: at defaults (cap 500) the concrete recommendation and
the fallback respect the cap. -/
theorem water_bounded_by_max_witness :
    (calculateSmartRecommendation sdDry wCalm defaultSettings 8).waterAmount ≤
      defaultSettings.maxDailyWater ∧
    (150 ≤ defaultSettings.maxDailyWater →
      (getFallbackRecommendation 3).waterAmount ≤ defaultSettings.maxDailyWater) :=
  water_bounded_by_max sdDry wCalm defaultSettings 8 500 3 (by decide)
    (by norm_num [defaultSettings])

/-- C6: whenever the telemetry or the weather provider fails, the engine
answers with the fallback recommendation: locally generated moisture in
[30, 70), `shouldIrrigate` iff moisture < 35, 150 L / 15 min when irrigating,
efficiency 75, next check in 2 hours; being a total function it never
throws. -/
theorem getRecommendation_fallback_shape (t : Option SensorData) (w : Option Weather)
    (st : Settings) (hour r : ℕ) (hr : r < 40) (hfail : t = none ∨ w = none) :
    getRecommendation t w st hour r = getFallbackRecommendation r ∧
    30 ≤ (getFallbackRecommendation r).soilMoisture ∧
    (getFallbackRecommendation r).soilMoisture < 70 ∧
    ((getFallbackRecommendation r).shouldIrrigate = true ↔
      (getFallbackRecommendation r).soilMoisture < 35) ∧
    (getFallbackRecommendation r).waterAmount =
      (if (getFallbackRecommendation r).shouldIrrigate then 150 else 0) ∧
    (getFallbackRecommendation r).duration =
      (if (getFallbackRecommendation r).shouldIrrigate then 15 else 0) ∧
    (getFallbackRecommendation r).efficiency = 75 ∧
    (getFallbackRecommendation r).nextCheck = 2 := by
  refine ⟨?_, ?_, ?_, ?_, rfl, rfl, rfl, rfl⟩
  · rcases hfail with h | h
    · subst h
      rfl
    · subst h
      cases t <;> rfl
  · show (30 : ℤ) ≤ (r : ℤ) + 30
    omega
  · show (r : ℤ) + 30 < 70
    omega
  · show (decide ((r : ℤ) + 30 < 35) = true) ↔ ((r : ℤ) + 30 < 35)
    exact decide_eq_true_iff

/-- C6 witness: with the telemetry provider down and the draw 12, the engine
returns the fallback shape. -/
theorem getRecommendation_fallback_shape_witness :
    getRecommendation none (some wCalm) defaultSettings 8 12 = getFallbackRecommendation 12 ∧
    30 ≤ (getFallbackRecommendation 12).soilMoisture ∧
    (getFallbackRecommendation 12).soilMoisture < 70 ∧
    ((getFallbackRecommendation 12).shouldIrrigate = true ↔
      (getFallbackRecommendation 12).soilMoisture < 35) ∧
    (getFallbackRecommendation 12).waterAmount =
      (if (getFallbackRecommendation 12).shouldIrrigate then 150 else 0) ∧
    (getFallbackRecommendation 12).duration =
      (if (getFallbackRecommendation 12).shouldIrrigate then 15 else 0) ∧
    (getFallbackRecommendation 12).efficiency = 75 ∧
    (getFallbackRecommendation 12).nextCheck = 2 :=
  getRecommendation_fallback_shape none (some wCalm) defaultSettings 8 12
    (by decide) (Or.inl rfl)

/-- C7 counterexample: the merge accepts a negative daily cap and the stored
settings change - there is no validation failure path at all. -/
theorem updateSettings_accepts_invalid :
    (updateSettings defaultSettings badUpdate).maxDailyWater = -5 ∧
    (updateSettings defaultSettings badUpdate).maxDailyWater ≤ 0 ∧
    updateSettings defaultSettings badUpdate ≠ defaultSettings := by decide

/-- C7 amended: `updateSettings` performs an unvalidated field-wise merge:
every partial update is accepted, a non-positive `maxDailyWater` included, and
the merged record replaces the stored settings. -/
theorem updateSettings_unvalidated_merge (s : Settings) (v : ℚ) (hv : v ≤ 0) :
    updateSettings s { maxDailyWater := some v } = { s with maxDailyWater := v } := rfl

/-- C7 amended witness: merging `maxDailyWater := -5` into the defaults stores
`-5`. -/
theorem updateSettings_unvalidated_merge_witness :
    updateSettings defaultSettings { maxDailyWater := some (-5) } =
      { defaultSettings with maxDailyWater := -5 } :=
  updateSettings_unvalidated_merge defaultSettings (-5) (by norm_num)

unseal Rat.add Rat.sub Rat.mul Rat.inv in
/-- C8 counterexample: zone 99 is not in the registry, yet the call succeeds
and appends a ledger entry. -/
theorem startIrrigation_unknown_zone_appends :
    (99 ∉ zoneIds defaultZones) ∧
    (startIrrigation [] [99] 10 "2025-01-01" 90).1.success = true ∧
    (startIrrigation [] [99] 10 "2025-01-01" 90).2.length = 1 := by decide

/-- C8 amended: `startIrrigation` never consults the zone registry: every call
succeeds, computes `|zones| × duration × 10` liters, and appends exactly one
manual history entry. -/
theorem startIrrigation_always_succeeds (history : List HistoryEntry)
    (zones : List ℕ) (duration : ℚ) (date : String) (eff : ℚ) :
    (startIrrigation history zones duration date eff).1.success = true ∧
    (startIrrigation history zones duration date eff).1.waterAmount =
      (zones.length : ℚ) * duration * 10 ∧
    (startIrrigation history zones duration date eff).2 =
      history ++ [{ date := date, waterUsed := (zones.length : ℚ) * duration * 10
                    duration := duration, zones := zones, efficiency := eff
                    reason := "manual", savings := 0 }] :=
  ⟨rfl, rfl, rfl⟩

unseal Rat.add Rat.sub Rat.mul Rat.inv in
/-- C9 counterexample: identical telemetry, weather and settings give
different recommendations at wall-clock hours 12 and 8 (the timing advisory
appears only between 10 and 16), so the computation is not pure in its four
inputs. -/
theorem recommendation_clock_dependent :
    calculateSmartRecommendation sdDry wLightRain defaultSettings 12 ≠
      calculateSmartRecommendation sdDry wLightRain defaultSettings 8 := by decide

/-- C9 amended: the recommendation is a deterministic function of the four
inputs plus the wall-clock hour, and every field except the
`smartRecommendations` advisory list depends on the four inputs alone. -/
theorem recommendation_pure_except_timing (sd : SensorData) (w : Weather)
    (st : Settings) (h1 h2 : ℕ) :
    eraseSmart (calculateSmartRecommendation sd w st h1) =
      eraseSmart (calculateSmartRecommendation sd w st h2) := rfl

end SmartAgri
